import Mathlib

/-!
Verification of the exclusive-ownership pointer compatibility header
`deps/v8_inspector/deps/wtf/wtf/PtrUtil.h`.

The header defines a hand-rolled `std::unique_ptr` replacement (a move-only
handle over a raw pointer), trait shims (`is_convertible`, `enable_if`,
`is_array`, ...), an `OwnedPtrDeleter` selecting scalar vs array delete, free
functions (`swap`, raw-pointer comparison operators, `getPtr`, a legacy
`move` helper) and a factory `wrapUnique`.

Shallow embedding choices:
* a raw pointer value is `Option Nat`: `none` is `nullptr`, `some a` an
  address `a`;
* the single data member `m_ptr` becomes a one-field structure;
* each operation that may invoke `OwnedPtrDeleter<T>::deletePtr` returns,
  besides its results, the list of pointer arguments handed to the deleter
  (in call order).  `delete`/`delete[]` on a null pointer destroys nothing,
  so the addresses actually destroyed are the non-null entries of that list;
* a heap `Nat → Option Nat` records the managed values; running the deleter
  calls over a heap shows which cells an operation destroys or modifies;
* the statement order inside `reset` and the move assignment (capture old
  field, write new field, debug check, delete old) is recorded as an event
  trace, so "the old value is destroyed only after the field is updated"
  is a statement about positions in the trace;
* compile-time machinery is embedded by its value: the `enable_if` shim
  maps the trait's boolean to the presence (`Option`) of its nested type,
  and the member-comparison `static_assert(!sizeof(U*), ...)` condition
  becomes a function of `sizeof(U*)`.
-/

namespace PtrUtil

/-- A heap address. -/
abbrev Addr := Nat

/-- A raw pointer value: `none` is `nullptr`. -/
abbrev Ptr := Option Addr

/-- The managed store: each allocated address holds a value. -/
abbrev Heap := Addr → Option Nat

/-- Addresses destroyed by one `OwnedPtrDeleter<T>::deletePtr(p)` call
(PtrUtil.h lines 89-110): `delete p` / `delete[] p` destroys the pointee
unless `p` is null, in which case it is a no-op. -/
def deletePtrEffect : Ptr → List Addr
  | none => []
  | some a => [a]

/-- Addresses destroyed by a sequence of deleter calls. -/
def destroyedOf (calls : List Ptr) : List Addr :=
  (calls.map deletePtrEffect).flatten

/-- Effect of one deleter call on the heap: the destroyed cell is removed,
every other cell is untouched. -/
def deletePtrHeap (h : Heap) (p : Ptr) : Heap :=
  match p with
  | none => h
  | some a => fun x => if x = a then none else h x

/-- Effect of a sequence of deleter calls on the heap. -/
def runDeletes (h : Heap) (calls : List Ptr) : Heap :=
  calls.foldl deletePtrHeap h

/-- The `std::enable_if` shim (lines 48-55): the primary template has no
nested `type`; only the `true` specialization exposes it.  `some ()` stands
for the nested typedef being present. -/
def enable_if : Bool → Option Unit
  | true => some ()
  | false => none

/-- The converting move constructor (line 121) carries the default template
argument `typename = typename enable_if<is_convertible<U*, T*>::value>::type`;
it participates in overload resolution exactly when substitution finds the
nested type.  Argument: the value of `is_convertible<U*, T*>::value`. -/
def convCtorParticipates (conv : Bool) : Bool :=
  (enable_if conv).isSome

/-- The converting move assignment (declared line 146, defined lines
218-228) is `template <typename U> unique_ptr& operator=(unique_ptr<U>&&)`
with no `enable_if` in its declaration: it participates in overload
resolution whatever the value of `is_convertible<U*, T*>::value`. -/
def convAssignParticipates (_conv : Bool) : Bool :=
  true

/-- Condition of `static_assert(!sizeof(U*), "unique_ptrs should never be
equal")` in the private member `operator==` (lines 159-163), as a function
of `sizeof(U*)`: `!n` on an integer is `n == 0`. -/
def memberEqAssertCond (sizeofUstar : Nat) : Bool :=
  sizeofUstar == 0

/-- Condition of the same static assertion in the private member
`operator!=` (lines 164-168). -/
def memberNeAssertCond (sizeofUstar : Nat) : Bool :=
  sizeofUstar == 0

/-- The ownership pointer: its sole data member `m_ptr` (line 170). -/
structure unique_ptr where
  m_ptr : Ptr
  deriving DecidableEq, Repr

/-- Micro-events of an operation body, in statement order. -/
inductive Event where
  /-- an assignment to an `m_ptr` field; `src` is true for the source
  (right-hand) object of a transfer, false for `*this` -/
  | write (src : Bool) (p : Ptr)
  /-- a `DCHECK` with the value of its condition -/
  | dcheckEv (ok : Bool)
  /-- an `OwnedPtrDeleter<T>::deletePtr` call with its argument -/
  | delCall (p : Ptr)
  deriving DecidableEq, Repr

/-- The explicit constructor `unique_ptr(PtrType ptr) : m_ptr(ptr) {}`
(line 152): stores the address, no deleter call. -/
def unique_ptr.fromRaw (ptr : Ptr) : unique_ptr :=
  ⟨ptr⟩

/-- `get` (line 129): returns `m_ptr`. -/
def unique_ptr.get (u : unique_ptr) : Ptr :=
  u.m_ptr

/-- `release` (lines 181-186): `PtrType ptr = m_ptr; m_ptr = nullptr;
return ptr;`.  Returns the returned pointer, the new state of the object,
and the deleter calls made (none: the body contains no delete). -/
def unique_ptr.release (u : unique_ptr) : Ptr × unique_ptr × List Ptr :=
  let ptr := u.m_ptr
  (ptr, ⟨none⟩, [])

/-- `reset` (lines 174-179): `PtrType p = m_ptr; m_ptr = ptr;
OwnedPtrDeleter<T>::deletePtr(p);`.  Returns the new state and the deleter
calls made.  The default argument of `reset()` is `nullptr`, i.e. `none`. -/
def unique_ptr.reset (u : unique_ptr) (ptr : Ptr) : unique_ptr × List Ptr :=
  let p := u.m_ptr
  (⟨ptr⟩, [p])

/-- Statement-order trace of `reset` (lines 174-179): the field is written
before the captured old pointer is handed to the deleter. -/
def unique_ptr.reset_trace (u : unique_ptr) (ptr : Ptr) : List Event :=
  [Event.write false ptr, Event.delCall u.m_ptr]

/-- The destructor (lines 123-127):
`OwnedPtrDeleter<T>::deletePtr(m_ptr); m_ptr = nullptr;`. -/
def unique_ptr.dtor (u : unique_ptr) : unique_ptr × List Ptr :=
  (⟨none⟩, [u.m_ptr])

/-- The move constructor (lines 196-199): `unique_ptr(unique_ptr&& o)
: m_ptr(o.release())`.  Returns the constructed object, the moved-from
object, and the deleter calls made (none). -/
def unique_ptr.moveCtor (o : unique_ptr) : unique_ptr × unique_ptr × List Ptr :=
  let rel := o.release
  (⟨rel.1⟩, rel.2.1, rel.2.2)

/-- Result of the move assignment. -/
structure MoveAssignResult where
  /-- the assigned-to object after the call -/
  dst : unique_ptr
  /-- the moved-from object after the call -/
  src : unique_ptr
  /-- deleter calls made by the body -/
  delCalls : List Ptr
  /-- value of the `DCHECK(!ptr || m_ptr != ptr)` condition -/
  dcheckOk : Bool
  deriving DecidableEq, Repr

/-- The move assignment `operator=(unique_ptr&& o)` (lines 208-216):
`PtrType ptr = m_ptr; m_ptr = o.release(); DCHECK(!ptr || m_ptr != ptr);
OwnedPtrDeleter<T>::deletePtr(ptr);`. -/
def unique_ptr.moveAssign (d o : unique_ptr) : MoveAssignResult :=
  let ptr := d.m_ptr
  let rel := o.release
  let newPtr := rel.1
  { dst := ⟨newPtr⟩
    src := rel.2.1
    delCalls := [ptr]
    dcheckOk := (ptr == none) || (newPtr != ptr) }

/-- Statement-order trace of the move assignment (lines 208-216): the
source field is nulled inside `o.release()`, the destination field receives
the transferred address, the debug check runs, and only then is the old
destination pointer handed to the deleter. -/
def unique_ptr.moveAssign_trace (d o : unique_ptr) : List Event :=
  [Event.write true none,
   Event.write false o.m_ptr,
   Event.dcheckEv ((d.m_ptr == none) || (o.m_ptr != d.m_ptr)),
   Event.delCall d.m_ptr]

/-- The member `swap` (line 148): `std::swap(m_ptr, o.m_ptr)`; no deleter
call. -/
def unique_ptr.swap (a o : unique_ptr) : (unique_ptr × unique_ptr) × List Ptr :=
  ((⟨o.m_ptr⟩, ⟨a.m_ptr⟩), [])

/-- The free `swap` (lines 230-233): `a.swap(b)`. -/
def swap (a b : unique_ptr) : (unique_ptr × unique_ptr) × List Ptr :=
  unique_ptr.swap a b

/-- Free `operator==(const unique_ptr<T>& a, U* b)` (lines 235-238):
`a.get() == b`. -/
def beq_uptr_raw (a : unique_ptr) (b : Ptr) : Bool :=
  a.get == b

/-- Free `operator==(T* a, const unique_ptr<U>& b)` (lines 240-243):
`a == b.get()`. -/
def beq_raw_uptr (a : Ptr) (b : unique_ptr) : Bool :=
  a == b.get

/-- Free `operator!=(const unique_ptr<T>& a, U* b)` (lines 245-248):
`a.get() != b`. -/
def bne_uptr_raw (a : unique_ptr) (b : Ptr) : Bool :=
  a.get != b

/-- Free `operator!=(T* a, const unique_ptr<U>& b)` (lines 250-253):
`a != b.get()`. -/
def bne_raw_uptr (a : Ptr) (b : unique_ptr) : Bool :=
  a != b.get

/-- Free `getPtr` (lines 255-258): `p.get()`. -/
def getPtr (p : unique_ptr) : Ptr :=
  p.get

/-- The legacy free `move` helper (lines 260-264):
`return unique_ptr<T>(ptr.release());`.  Returns the constructed object,
the argument after the call, and the deleter calls made (none). -/
def move (p : unique_ptr) : unique_ptr × unique_ptr × List Ptr :=
  let rel := p.release
  (unique_ptr.fromRaw rel.1, rel.2.1, rel.2.2)

/-- The factory `wrapUnique` (lines 270-273):
`return std::unique_ptr<T>(ptr);`.  The construction makes no deleter
call. -/
def wrapUnique (ptr : Ptr) : unique_ptr × List Ptr :=
  (unique_ptr.fromRaw ptr, [])

/-- Claim C1: for every raw pointer `a`, `wrapUnique(a)` returns a pointer
whose `get()` equals `a`, and the construction makes no deleter call and
leaves every heap cell (hence the managed value) untouched. -/
theorem wrapUnique_get_eq (a : Ptr) (heap : Heap) :
    (wrapUnique a).1.get = a ∧
    (wrapUnique a).2 = [] ∧
    runDeletes heap (wrapUnique a).2 = heap :=
  ⟨rfl, rfl, rfl⟩

/-- Claim C2: move construction, and the free `move` helper, transfer the
held address: the new object holds the source's address, the source is
left null, and neither path makes a deleter call or changes the heap, so
the managed value is not destroyed. -/
theorem moveCtor_move_transfer (p : unique_ptr) (heap : Heap) :
    (p.moveCtor).1.get = p.get ∧
    (p.moveCtor).2.1.get = none ∧
    runDeletes heap (p.moveCtor).2.2 = heap ∧
    (move p).1.get = p.get ∧
    (move p).2.1.get = none ∧
    runDeletes heap (move p).2.2 = heap :=
  ⟨rfl, rfl, rfl, rfl, rfl, rfl⟩

/-- Claim C3: on an instance holding a non-null address `a`, `release`
returns `a`, leaves the instance null, and makes no deleter call, so the
value at `a` is not destroyed and ownership passes to the caller. -/
theorem release_nonnull (p : unique_ptr) (a : Addr) (h : p.get = some a) :
    (p.release).1 = some a ∧
    (p.release).2.1.get = none ∧
    (p.release).2.2 = [] :=
  ⟨h, rfl, rfl⟩

/-- Witness for `release_nonnull` at the concrete instance holding
address 5. -/
theorem release_nonnull_witness :
    ((unique_ptr.fromRaw (some 5)).release).1 = some 5 ∧
    ((unique_ptr.fromRaw (some 5)).release).2.1.get = none ∧
    ((unique_ptr.fromRaw (some 5)).release).2.2 = [] :=
  release_nonnull (unique_ptr.fromRaw (some 5)) 5 rfl

/-- Claim C4: after `reset b`, the field holds `b` and the previously
managed address (if any) is destroyed exactly once — the destroyed-address
list is exactly the old field's content; moreover in the statement trace
the write of the new field value precedes the deleter call on the old
pointer. -/
theorem reset_replaces_then_deletes (u : unique_ptr) (b : Ptr) :
    ((u.reset b).1).get = b ∧
    destroyedOf (u.reset b).2 = u.m_ptr.toList ∧
    (∃ i j, i < j ∧
      (u.reset_trace b).get? i = some (Event.write false b) ∧
      (u.reset_trace b).get? j = some (Event.delCall u.m_ptr)) :=
  ⟨rfl,
   by cases u with
      | mk p =>
        cases p <;>
          simp [unique_ptr.reset, destroyedOf, deletePtrEffect, Option.toList],
   ⟨0, 1, by omega, rfl, rfl⟩⟩

/-- Claim C5: move assignment where the destination's old address (when
non-null) differs from the source's address transfers ownership: the
destination holds the source's former address, the source becomes null, the
destination's old value (if any) is destroyed — exactly the old field's
content — the debug check `DCHECK(!ptr || m_ptr != ptr)` passes, and in
the statement trace both field writes precede the deleter call. -/
theorem moveAssign_transfers (d s : unique_ptr)
    (h : d.get ≠ none → d.get ≠ s.get) :
    (d.moveAssign s).dst.get = s.get ∧
    (d.moveAssign s).src.get = none ∧
    destroyedOf (d.moveAssign s).delCalls = d.m_ptr.toList ∧
    (d.moveAssign s).dcheckOk = true ∧
    (∃ i j k, i < k ∧ j < k ∧
      (d.moveAssign_trace s).get? i = some (Event.write true none) ∧
      (d.moveAssign_trace s).get? j = some (Event.write false s.m_ptr) ∧
      (d.moveAssign_trace s).get? k = some (Event.delCall d.m_ptr)) := by
  refine ⟨rfl, rfl, ?_, ?_, 0, 1, 3, by omega, by omega, rfl, rfl, rfl⟩
  · cases d with
    | mk p =>
      cases p <;>
        simp [unique_ptr.moveAssign, unique_ptr.release, destroyedOf,
          deletePtrEffect, Option.toList]
  · cases hd : d.m_ptr with
    | none =>
      simp [unique_ptr.moveAssign, unique_ptr.release, hd]
    | some a =>
      have hne : d.get ≠ s.get := h (by simp [unique_ptr.get, hd])
      have : s.m_ptr ≠ some a := by
        intro hs
        exact hne (by simp [unique_ptr.get, hd, hs])
      simp [unique_ptr.moveAssign, unique_ptr.release, hd, this]

/-- Witness for `moveAssign_transfers` at concrete instances holding 1
and 2. -/
theorem moveAssign_transfers_witness :
    ((unique_ptr.fromRaw (some 1)).get ≠ none →
      (unique_ptr.fromRaw (some 1)).get ≠ (unique_ptr.fromRaw (some 2)).get) ∧
    ((unique_ptr.fromRaw (some 1)).moveAssign (unique_ptr.fromRaw (some 2))).dst.get
      = (unique_ptr.fromRaw (some 2)).get ∧
    ((unique_ptr.fromRaw (some 1)).moveAssign (unique_ptr.fromRaw (some 2))).dcheckOk
      = true :=
  ⟨by decide,
   (moveAssign_transfers (unique_ptr.fromRaw (some 1))
      (unique_ptr.fromRaw (some 2)) (by decide)).1,
   (moveAssign_transfers (unique_ptr.fromRaw (some 1))
      (unique_ptr.fromRaw (some 2)) (by decide)).2.2.2.1⟩

/-- Claim C6: the member `swap` and the free `swap` exchange the two held
addresses, make no deleter call, and leave every heap cell untouched. -/
theorem swap_exchanges (a b : unique_ptr) (heap : Heap) :
    (unique_ptr.swap a b).1.1.get = b.get ∧
    (unique_ptr.swap a b).1.2.get = a.get ∧
    runDeletes heap (unique_ptr.swap a b).2 = heap ∧
    (swap a b).1.1.get = b.get ∧
    (swap a b).1.2.get = a.get ∧
    runDeletes heap (swap a b).2 = heap :=
  ⟨rfl, rfl, rfl, rfl, rfl, rfl⟩

/-- Claim C7: comparison against a raw pointer compares the managed
address, in both operand orders, and each inequality operator is the
boolean negation of the corresponding equality operator. -/
theorem raw_compare_spec (p : unique_ptr) (b : Ptr) :
    (beq_uptr_raw p b = true ↔ p.get = b) ∧
    (beq_raw_uptr b p = true ↔ b = p.get) ∧
    bne_uptr_raw p b = !(beq_uptr_raw p b) ∧
    bne_raw_uptr b p = !(beq_raw_uptr b p) :=
  ⟨by simp [beq_uptr_raw], by simp [beq_raw_uptr], rfl, rfl⟩

/-- Claim C8: for every positive value of `sizeof(U*)` — and pointer sizes
are always positive — the condition of the static assertion guarding the
member `operator==` and `operator!=` between two ownership pointers is
false, so any instantiation of these comparisons fails to compile; there
is no runtime path to them. -/
theorem member_compare_rejected (s : Nat) (h : 0 < s) :
    memberEqAssertCond s = false ∧ memberNeAssertCond s = false := by
  have hs : s ≠ 0 := Nat.pos_iff_ne_zero.mp h
  exact ⟨by simp [memberEqAssertCond, hs], by simp [memberNeAssertCond, hs]⟩

/-- Witness for `member_compare_rejected` at `sizeof(U*) = 8`. -/
theorem member_compare_rejected_witness :
    (0 < 8) ∧ (memberEqAssertCond 8 = false ∧ memberNeAssertCond 8 = false) :=
  ⟨by decide, member_compare_rejected 8 (by decide)⟩

/-- Counterexample to claim C9 as stated: the claim says the converting
move assignment participates in overload resolution only when the
convertibility trait is true, i.e. it would not participate when the trait
is false; but its declaration (line 146) carries no `enable_if`, so it
participates even then. -/
theorem convAssign_not_gated_cex :
    ¬ (convAssignParticipates false = false) := by
  decide

/-- Claim C9 (amended): the converting move constructor participates in
overload resolution exactly when `is_convertible<U*, T*>::value` holds
(removed by substitution failure otherwise), while the converting move
assignment is declared without the `enable_if` gate and participates
regardless of the trait's value. -/
theorem conv_gating (conv : Bool) :
    convCtorParticipates conv = conv ∧ convAssignParticipates conv = true := by
  cases conv <;> exact ⟨rfl, rfl⟩

/-- Claim C10: on a null instance, `release` returns null and leaves the
instance null with no deleter call; `reset()` (default null argument)
hands the null old pointer to the deleter, which destroys nothing, and
leaves the instance null; the destructor hands the null pointer to the
deleter, which destroys nothing. -/
theorem null_ops_noop (p : unique_ptr) (h : p.get = none) :
    (p.release).1 = none ∧
    (p.release).2.1.get = none ∧
    (p.release).2.2 = [] ∧
    ((p.reset none).1).get = none ∧
    (p.reset none).2 = [none] ∧
    destroyedOf (p.reset none).2 = [] ∧
    (p.dtor).1.get = none ∧
    (p.dtor).2 = [none] ∧
    destroyedOf (p.dtor).2 = [] := by
  cases p with
  | mk q =>
    cases q with
    | none =>
      exact ⟨rfl, rfl, rfl, rfl, rfl, rfl, rfl, rfl, rfl⟩
    | some a =>
      exact absurd h (by simp [unique_ptr.get])

/-- Witness for `null_ops_noop` at the concrete null instance. -/
theorem null_ops_noop_witness :
    ((unique_ptr.fromRaw none).release).1 = none ∧
    ((unique_ptr.fromRaw none).release).2.1.get = none ∧
    ((unique_ptr.fromRaw none).release).2.2 = [] ∧
    (((unique_ptr.fromRaw none).reset none).1).get = none ∧
    ((unique_ptr.fromRaw none).reset none).2 = [none] ∧
    destroyedOf ((unique_ptr.fromRaw none).reset none).2 = [] ∧
    ((unique_ptr.fromRaw none).dtor).1.get = none ∧
    ((unique_ptr.fromRaw none).dtor).2 = [none] ∧
    destroyedOf ((unique_ptr.fromRaw none).dtor).2 = [] :=
  null_ops_noop (unique_ptr.fromRaw none) rfl

end PtrUtil
